import Mathlib

/-!
Shallow embedding of pyTailgating (src/pyTailgating.py): a longitudinal
vehicle-following controller.  Machine floats are modelled as exact
rationals; the float value inf produced for the time-to-collision when
the gap is not closing is modelled by an explicit two-constructor type.
Graphics, keyboard polling and the event loop are outside the core and
are not modelled.
-/

/-- Frames per second of the simulation loop (source line 10). -/
def FPS : ℚ := 60

/-- Configured aggressiveness scalar: PROFILES at key well ok... (source lines 15-30). -/
def profile : ℚ := 0.6

/-- targetDistance formula, source line 32. -/
def TARGET_DISTANCE (p : ℚ) : ℚ := 150 - 5 * p

/-- Deadband constant, source line 33. -/
def DEADBAND : ℚ := 6

/-- Maximum follower speed, source line 35. -/
def MAX_SPEED : ℚ := 350

/-- Maximum acceleration, source line 36. -/
def MAX_ACCEL : ℚ := 100

/-- Maximum braking (negative acceleration), source line 37. -/
def MAX_BRAKE : ℚ := -300

/-- Maximum jerk (rate of change of acceleration), source line 38. -/
def MAX_JERK : ℚ := 1000

/-- Reaction time in seconds, source line 40. -/
def REACTION_TIME : ℚ := 0.5

/-- Standstill distance, source line 42. -/
def STANDSTILL_DISTANCE : ℚ := 25

/-- Time headway formula, source line 43. -/
def TIME_HEADWAY (p : ℚ) : ℚ := 1.8 - p

/-- Desired time-to-collision formula, source line 46. -/
def DESIRED_TTC (p : ℚ) : ℚ := 2.6 - p

/-- Minimum time-to-collision formula, source line 47. -/
def MIN_TTC (p : ℚ) : ℚ := 1.5 - p

/-- TTC proportional gain, source line 48. -/
def TTC_GAIN : ℚ := 600

/-- State of one PIDController instance: fixed gains plus the two mutable
fields integral and prev_error (source lines 58-64). -/
structure PIDState where
  kp : ℚ
  ki : ℚ
  kd : ℚ
  integral : ℚ
  prevError : ℚ
deriving DecidableEq, Repr

/-- PIDController.update (source lines 66-74): mutates integral and
prev_error and returns the control output.  Modelled as a pure function
returning the output together with the new state. -/
def PIDState.update (s : PIDState) (error dt : ℚ) : ℚ × PIDState :=
  let integral := s.integral + error * dt
  let derivative := if 0 < dt then (error - s.prevError) / dt else 0
  (s.kp * error + s.ki * integral + s.kd * derivative,
   { s with integral := integral, prevError := error })

/-- PIDController.reset (source lines 76-78): zeroes integral and prev_error. -/
def PIDState.reset (s : PIDState) : PIDState :=
  { s with integral := 0, prevError := 0 }

/-- The accel (cruise) PID as constructed at source line 130, with the
initial integral and prev_error of the constructor (lines 59-64). -/
def accelPID0 (p : ℚ) : PIDState :=
  { kp := 0.6 + p * 0.02, ki := 0.0, kd := 0.2, integral := 0, prevError := 0 }

/-- The brake PID as constructed at source line 131. -/
def brakePID0 (p : ℚ) : PIDState :=
  { kp := 1.2 + p * 0.02, ki := 0.0, kd := 0.6, integral := 0, prevError := 0 }

/-- One perception sample pushed into the reaction buffer: the dict
with keys distance and rel_speed built at source line 162. -/
structure Sample where
  distance : ℚ
  rel_speed : ℚ
deriving DecidableEq, Repr

/-- One step of the delayed-perception queue (source lines 162-166):
append the new sample, then drop the head if the length exceeds the
capacity. -/
def bufPush (cap : ℕ) (buf : List Sample) (s : Sample) : List Sample :=
  let buf := buf ++ [s]
  if buf.length > cap then buf.tail else buf

/-- The buffer obtained by pushing the samples of a list, in order, into
an initially empty reaction buffer (the deque is created empty at source
line 133). -/
def bufFill (cap : ℕ) (l : List Sample) : List Sample :=
  l.foldl (bufPush cap) []

/-- Capacity of the reaction buffer: max_len at source line 164,
int(REACTION_TIME * FPS). -/
def max_len : ℕ := (Int.floor (REACTION_TIME * FPS)).toNat

/-- Value of the ttc variable: a finite rational or the float value inf
assigned at source line 177. -/
inductive TTCval where
  | fin (q : ℚ)
  | inf
deriving DecidableEq, Repr

/-- The comparison ttc < c for a finite threshold c, as Python evaluates
it on a float that may be inf (inf < c is false for finite c). -/
def ttcLt : TTCval → ℚ → Bool
  | .fin q, c => decide (q < c)
  | .inf, _ => false

/-- The finite value carried by a ttc; the inf case is never read by the
controller because every use is guarded by a ttcLt test. -/
def ttcFin : TTCval → ℚ
  | .fin q => q
  | .inf => 0

/-- The ttc computation of source lines 174-177: distance / rel_speed
when rel_speed > 0, otherwise inf.  The division is performed only under
the positivity guard. -/
def computeTTC (distance rel_speed : ℚ) : TTCval :=
  if 0 < rel_speed then .fin (distance / rel_speed) else .inf

/-- Result of the per-tick mode arbitration (source lines 170-209): the
pre-jerk-limit desired acceleration and the two PID states after the
resets and updates of the branch taken. -/
structure ArbResult where
  desired : ℚ
  pidAccel : PIDState
  pidBrake : PIDState
deriving DecidableEq, Repr

/-- Mode arbitration, source lines 170-209.  distance and rel_speed are
the perceived (delayed) values; followerSpeed is follower_car.speed at
the decision point.  The deadband block (lines 183-186) resets both PIDs
and sets desired_accel to 0; the following if/elif/else chain
(lines 188-209) always overwrites desired_accel, so the 0 is carried
only through the resets. -/
def arbitrate (p : ℚ) (pidAccel pidBrake : PIDState)
    (distance rel_speed followerSpeed dt : ℚ) : ArbResult :=
  let min_follow_distance := STANDSTILL_DISTANCE + followerSpeed * TIME_HEADWAY p
  let ttc := computeTTC distance rel_speed
  let distance_error := distance - max (TARGET_DISTANCE p) min_follow_distance
  let pidAccel := if |distance_error| < DEADBAND then pidAccel.reset else pidAccel
  let pidBrake := if |distance_error| < DEADBAND then pidBrake.reset else pidBrake
  if distance < min_follow_distance then
    ⟨MAX_BRAKE, pidAccel.reset, pidBrake⟩
  else if ttcLt ttc (DESIRED_TTC p) then
    let pidAccel := pidAccel.reset
    if ttcLt ttc (MIN_TTC p) then
      ⟨MAX_BRAKE, pidAccel, pidBrake⟩
    else
      let ttc_error := DESIRED_TTC p - ttcFin ttc
      let desired := -TTC_GAIN * ttc_error
      let u := pidBrake.update distance_error dt
      ⟨max (desired + u.1) MAX_BRAKE, pidAccel, u.2⟩
  else
    let pidBrake := pidBrake.reset
    let u := pidAccel.update distance_error dt
    ⟨min u.1 MAX_ACCEL, u.2, pidBrake⟩

/-- The jerk limiter of source lines 211-212: clamp the proposed
acceleration a into the band of width max_delta around the last
commanded acceleration. -/
def rateLimit (last max_delta a : ℚ) : ℚ :=
  max (last - max_delta) (min (last + max_delta) a)

/-- The controller state carried from tick to tick: the two PID states,
the reaction buffer, and last_accel (source lines 130-136). -/
structure CtrlState where
  pidAccel : PIDState
  pidBrake : PIDState
  buffer : List Sample
  lastAccel : ℚ
deriving DecidableEq, Repr

/-- Per-tick inputs of the controller: dt and the true kinematic
quantities read at source lines 159-160 and 172. -/
structure TickInput where
  dt : ℚ
  followerSpeed : ℚ
  trueDistance : ℚ
  trueRelSpeed : ℚ
deriving DecidableEq, Repr

/-- One controller tick, source lines 158-217: push the true sample,
read the delayed perception at index 0, arbitrate, apply the jerk
limiter, update last_accel, and derive the braking indicator
(desired_accel < -25, line 217).  Returns the commanded acceleration,
the braking indicator and the new controller state.  The headD default
is never read: after a push the buffer is nonempty. -/
def controllerTick (p : ℚ) (st : CtrlState) (inp : TickInput) : ℚ × Bool × CtrlState :=
  let sample : Sample := ⟨inp.trueDistance, inp.trueRelSpeed⟩
  let buffer := bufPush max_len st.buffer sample
  let perceived := buffer.headD sample
  let r := arbitrate p st.pidAccel st.pidBrake perceived.distance perceived.rel_speed
      inp.followerSpeed inp.dt
  let max_delta := MAX_JERK * inp.dt
  let desired_accel := rateLimit st.lastAccel max_delta r.desired
  let braking := decide (desired_accel < -25)
  (desired_accel, braking, ⟨r.pidAccel, r.pidBrake, buffer, desired_accel⟩)

/-- Run of the controller over a list of tick inputs, collecting the
trace of (commanded acceleration, braking indicator) pairs. -/
def runTrace (p : ℚ) : CtrlState → List TickInput → List (ℚ × Bool)
  | _, [] => []
  | st, inp :: rest =>
    let r := controllerTick p st inp
    (r.1, r.2.1) :: runTrace p r.2.2 rest

/-- The jerk-chain predicate: each (dt, accel) pair differs from its
predecessor (prev for the first) by at most MAX_JERK * dt. -/
def jerkChain (prev : ℚ) : List (ℚ × ℚ) → Prop
  | [] => True
  | (dt, a) :: rest => |a - prev| ≤ MAX_JERK * dt ∧ jerkChain a rest

/-- A car of the external kinematic collaborator (source lines 80-85);
the color field is presentation-only and not modelled. -/
structure Car where
  x : ℚ
  y : ℚ
  speed : ℚ
deriving DecidableEq, Repr

/-- Car.update, source lines 87-90: Euler step with the speed clamped to
[0, MAX_SPEED] before the position advances. -/
def Car.update (c : Car) (accel dt : ℚ) : Car :=
  let speed := c.speed + accel * dt
  let speed := max 0 (min speed MAX_SPEED)
  { c with speed := speed, x := c.x + speed * dt }

/-! ## Claims -/

/-- Claim C6: the ttc computation is guarded: whenever the perceived
relative speed is at most 0 the ttc is inf (so TTC braking cannot
trigger), and the division distance / rel_speed is evaluated only when
the relative speed is strictly positive. -/
theorem ttc_division_guard (distance rel_speed : ℚ) :
    (rel_speed ≤ 0 → computeTTC distance rel_speed = TTCval.inf) ∧
    (0 < rel_speed → computeTTC distance rel_speed = TTCval.fin (distance / rel_speed)) := by
  constructor
  · intro h
    simp [computeTTC, not_lt.mpr h]
  · intro h
    simp [computeTTC, h]

/-- Witness for C6 at rel_speed = 0 and rel_speed = 2. -/
theorem ttc_division_guard_witness :
    computeTTC 100 0 = TTCval.inf ∧ computeTTC 100 2 = TTCval.fin (100 / 2) :=
  ⟨(ttc_division_guard 100 0).1 le_rfl, (ttc_division_guard 100 2).2 (by norm_num)⟩

/-- Claim C9: after every kinematic update the follower speed lies in
[0, MAX_SPEED]: the update clamps speed + accel * dt into that range
before advancing the position, for every incoming state, acceleration
command and dt. -/
theorem speed_saturation (c : Car) (accel dt : ℚ) :
    0 ≤ (c.update accel dt).speed ∧ (c.update accel dt).speed ≤ MAX_SPEED := by
  simp only [Car.update]
  exact ⟨le_max_left _ _, max_le (by norm_num [MAX_SPEED]) (min_le_right _ _)⟩

/-- Claim C8: the controller constants are exactly the fixed formulas of
the profile scalar stated in the spec, for every profile value (hence in
particular on [0,1]); the PID gains are those of the two constructed
controllers.  In this embedding all of them are plain definitions, so
none is mutated after construction. -/
theorem profile_constants (p : ℚ) :
    TARGET_DISTANCE p = 150 - 5 * p ∧ DEADBAND = 6 ∧
    TIME_HEADWAY p = 1.8 - p ∧ DESIRED_TTC p = 2.6 - p ∧ MIN_TTC p = 1.5 - p ∧
    TTC_GAIN = 600 ∧ STANDSTILL_DISTANCE = 25 ∧ MAX_SPEED = 350 ∧
    MAX_ACCEL = 100 ∧ MAX_BRAKE = -300 ∧ MAX_JERK = 1000 ∧ REACTION_TIME = 0.5 ∧
    accelPID0 p = ⟨0.6 + 0.02 * p, 0, 0.2, 0, 0⟩ ∧
    brakePID0 p = ⟨1.2 + 0.02 * p, 0, 0.6, 0, 0⟩ := by
  refine ⟨rfl, rfl, rfl, rfl, rfl, rfl, rfl, rfl, rfl, rfl, rfl, rfl, ?_, ?_⟩ <;>
    · simp only [accelPID0, brakePID0, PIDState.mk.injEq]
      norm_num
      ring

/-- Claim C2: whenever the perceived distance is below the minimum
follow distance, the pre-jerk-limit desired acceleration is exactly
MAX_BRAKE and the cruise (accel) PID ends the arbitration reset,
with no assumption on whether the deadband condition also held. -/
theorem too_close_hard_floor (p : ℚ) (pa pb : PIDState)
    (distance rel_speed followerSpeed dt : ℚ)
    (h : distance < STANDSTILL_DISTANCE + followerSpeed * TIME_HEADWAY p) :
    (arbitrate p pa pb distance rel_speed followerSpeed dt).desired = MAX_BRAKE ∧
    (arbitrate p pa pb distance rel_speed followerSpeed dt).pidAccel = pa.reset := by
  simp only [arbitrate]
  rw [if_pos h]
  refine ⟨rfl, ?_⟩
  by_cases hdb : |distance - max (TARGET_DISTANCE p)
      (STANDSTILL_DISTANCE + followerSpeed * TIME_HEADWAY p)| < DEADBAND <;>
    simp [hdb, PIDState.reset]

/-- Witness for C2: a tick with perceived distance 10 against a minimum
follow distance of 25. -/
theorem too_close_hard_floor_witness :
    (10 : ℚ) < STANDSTILL_DISTANCE + 0 * TIME_HEADWAY 0.6 ∧
    ((arbitrate 0.6 (accelPID0 0.6) (brakePID0 0.6) 10 0 0 (1/60)).desired = MAX_BRAKE ∧
     (arbitrate 0.6 (accelPID0 0.6) (brakePID0 0.6) 10 0 0 (1/60)).pidAccel =
       (accelPID0 0.6).reset) :=
  ⟨by norm_num [STANDSTILL_DISTANCE, TIME_HEADWAY],
   too_close_hard_floor 0.6 (accelPID0 0.6) (brakePID0 0.6) 10 0 0 (1/60)
     (by norm_num [STANDSTILL_DISTANCE, TIME_HEADWAY])⟩

/-- Counterexample to Claim C4 as stated: with gains kp = 0, ki = 1,
kd = 0, reset followed by update with error 1 and dt 1 returns 1, not
kp * error + kd * (error / dt) = 0: the integral is incremented by
error * dt before the output is formed, so with a nonzero ki the first
post-reset output is not free of the integral term. -/
theorem pid_post_reset_cex :
    ((PIDState.reset ⟨0, 1, 0, 5, 7⟩).update 1 1).1 ≠
      (0 : ℚ) * 1 + 0 * (1 / 1) := by
  norm_num [PIDState.update, PIDState.reset]

/-- Claim C4 amended: reset followed by update(error, dt) with dt > 0
returns exactly kp * error + ki * (error * dt) + kd * (error / dt); the
integral term contributes ki * error * dt (which is 0 precisely in the
calibrated profiles, where ki = 0), not 0 for every gain triple. -/
theorem pid_post_reset_value (s : PIDState) (error dt : ℚ) (h : 0 < dt) :
    ((s.reset).update error dt).1 =
      s.kp * error + s.ki * (error * dt) + s.kd * (error / dt) := by
  simp only [PIDState.update, PIDState.reset, if_pos h]
  ring

/-- Witness for the amended C4 at gains (3, 5, 7), error 1, dt 2. -/
theorem pid_post_reset_value_witness :
    (0 : ℚ) < 2 ∧ (((⟨3, 5, 7, 11, 13⟩ : PIDState).reset).update 1 2).1 =
      (3 : ℚ) * 1 + 5 * (1 * 2) + 7 * (1 / 2) :=
  ⟨by norm_num, pid_post_reset_value ⟨3, 5, 7, 11, 13⟩ 1 2 (by norm_num)⟩

/-! ## Helper lemmas shared by several claims -/

/-- The reaction buffer capacity evaluates to 30 (0.5 seconds at 60 FPS). -/
theorem max_len_eq : max_len = 30 := by
  have h : REACTION_TIME * FPS = (30 : ℚ) := by norm_num [REACTION_TIME, FPS]
  rw [max_len, h]
  norm_num
  rfl

/-- One push on a buffer holding the last cap samples of a history h
yields the buffer holding the last cap samples of h ++ [s]. -/
theorem bufPush_drop (cap : ℕ) (h : List Sample) (s : Sample) :
    bufPush cap (h.drop (h.length - cap)) s =
      (h ++ [s]).drop ((h ++ [s]).length - cap) := by
  have hd : h.drop (h.length - cap) ++ [s] = (h ++ [s]).drop (h.length - cap) :=
    (List.drop_append_of_le_length (Nat.sub_le _ _)).symm
  simp only [bufPush, hd, List.length_drop, List.length_append, List.length_singleton]
  rcases le_or_lt cap h.length with hc | hc
  · rw [if_pos (by omega), List.tail_drop]
    congr 1
    omega
  · rw [if_neg (by omega)]
    congr 1
    omega

/-- The buffer after pushing a whole list always holds exactly the last
cap samples of the pushed history. -/
theorem bufFill_eq_drop (cap : ℕ) (l : List Sample) :
    bufFill cap l = l.drop (l.length - cap) := by
  suffices hgen : ∀ (l2 acc : List Sample),
      List.foldl (bufPush cap) (acc.drop (acc.length - cap)) l2 =
        (acc ++ l2).drop ((acc ++ l2).length - cap) by
    have := hgen l []
    simpa [bufFill] using this
  intro l2
  induction l2 with
  | nil => intro acc; simp
  | cons s rest ih =>
    intro acc
    rw [List.foldl_cons, bufPush_drop, ih (acc ++ [s])]
    simp

/-- The jerk limiter moves the command by at most max_delta when
max_delta is nonnegative. -/
theorem rateLimit_bound (last d a : ℚ) (hd : 0 ≤ d) :
    |rateLimit last d a - last| ≤ d := by
  rw [rateLimit, abs_le]
  constructor
  · have h1 : last - d ≤ max (last - d) (min (last + d) a) := le_max_left _ _
    linarith
  · have h2 : max (last - d) (min (last + d) a) ≤ last + d :=
      max_le (by linarith) (min_le_left _ _)
    linarith

/-- The tick stores its commanded acceleration in last_accel
(source line 213). -/
theorem controllerTick_lastAccel (p : ℚ) (st : CtrlState) (inp : TickInput) :
    (controllerTick p st inp).2.2.lastAccel = (controllerTick p st inp).1 := rfl

/-- Per-tick jerk bound: the commanded acceleration differs from the
previous last_accel by at most MAX_JERK * dt, for every state and every
input with nonnegative dt, whatever branch the arbitration takes. -/
theorem controllerTick_jerk (p : ℚ) (st : CtrlState) (inp : TickInput)
    (hdt : 0 ≤ inp.dt) :
    |(controllerTick p st inp).1 - st.lastAccel| ≤ MAX_JERK * inp.dt := by
  have hd : (0:ℚ) ≤ MAX_JERK * inp.dt := mul_nonneg (by norm_num [MAX_JERK]) hdt
  simp only [controllerTick]
  exact rateLimit_bound _ _ _ hd

/-- The jerk chain holds along every run, starting from the last_accel
of the initial state. -/
theorem jerkChain_runTrace (p : ℚ) (ins : List TickInput) :
    ∀ (st : CtrlState), (∀ i ∈ ins, 0 ≤ i.dt) →
    jerkChain st.lastAccel
      (List.zip (ins.map TickInput.dt) ((runTrace p st ins).map Prod.fst)) := by
  induction ins with
  | nil => intro st _; trivial
  | cons inp rest ih =>
    intro st h
    simp only [runTrace, List.map_cons, List.zip_cons_cons, jerkChain]
    refine ⟨controllerTick_jerk p st inp (h inp (by simp)), ?_⟩
    have hrec := ih (controllerTick p st inp).2.2 (fun i hi => h i (by simp [hi]))
    rw [controllerTick_lastAccel] at hrec
    exact hrec

/-- A ttc below the minimum threshold is also below the desired
threshold, since MIN_TTC p < DESIRED_TTC p. -/
theorem ttcLt_min_imp_desired (p : ℚ) (t : TTCval)
    (h : ttcLt t (MIN_TTC p) = true) : ttcLt t (DESIRED_TTC p) = true := by
  cases t with
  | fin q =>
    simp only [ttcLt, decide_eq_true_eq, MIN_TTC, DESIRED_TTC] at h ⊢
    linarith
  | inf => simp [ttcLt] at h

/-- The brake PID stored by a tick is the one produced by the
arbitration on the perceived sample. -/
theorem controllerTick_pidBrake (p : ℚ) (st : CtrlState) (inp : TickInput) :
    (controllerTick p st inp).2.2.pidBrake =
      (arbitrate p st.pidAccel st.pidBrake
        ((bufPush max_len st.buffer ⟨inp.trueDistance, inp.trueRelSpeed⟩).headD
          ⟨inp.trueDistance, inp.trueRelSpeed⟩).distance
        ((bufPush max_len st.buffer ⟨inp.trueDistance, inp.trueRelSpeed⟩).headD
          ⟨inp.trueDistance, inp.trueRelSpeed⟩).rel_speed
        inp.followerSpeed inp.dt).pidBrake := rfl

/-- On the very first tick the perceived sample is the sample just
pushed (the buffer was empty). -/
theorem firstPush_headD (d rs : ℚ) :
    (bufPush max_len [] ⟨d, rs⟩).headD ⟨d, rs⟩ = (⟨d, rs⟩ : Sample) := by
  simp only [bufPush, max_len_eq, List.nil_append, List.length_singleton]
  rw [if_neg (by norm_num : ¬(1 > 30))]
  rfl

/-! ## Remaining claims -/

/-- Claim C1: along every run started with last_accel = 0 whose dt
values are nonnegative, consecutive commanded accelerations (with
initial value 0) differ by at most MAX_JERK * dt of the tick; moreover
every tick output is the rate limiter applied, as the final stage, to
some proposed acceleration, regardless of the arbitration branch. -/
theorem jerk_limiter_invariant (p : ℚ) (st : CtrlState) (ins : List TickInput)
    (h0 : st.lastAccel = 0) (hdt : ∀ i ∈ ins, 0 ≤ i.dt) :
    jerkChain 0 (List.zip (ins.map TickInput.dt) ((runTrace p st ins).map Prod.fst)) ∧
    ∀ (s : CtrlState) (i : TickInput), ∃ a : ℚ,
      (controllerTick p s i).1 = rateLimit s.lastAccel (MAX_JERK * i.dt) a := by
  refine ⟨?_, fun s i => ⟨_, rfl⟩⟩
  have h := jerkChain_runTrace p ins st hdt
  rwa [h0] at h

/-- Witness for C1: a one-tick run from the startup state. -/
theorem jerk_limiter_invariant_witness :
    (⟨accelPID0 0.6, brakePID0 0.6, [], 0⟩ : CtrlState).lastAccel = 0 ∧
    (∀ i ∈ [(⟨1/60, 0, 150, 0⟩ : TickInput)], 0 ≤ i.dt) ∧
    (jerkChain 0
      (List.zip (([(⟨1/60, 0, 150, 0⟩ : TickInput)]).map TickInput.dt)
        ((runTrace 0.6 ⟨accelPID0 0.6, brakePID0 0.6, [], 0⟩
          [(⟨1/60, 0, 150, 0⟩ : TickInput)]).map Prod.fst)) ∧
     ∀ (s : CtrlState) (i : TickInput), ∃ a : ℚ,
       (controllerTick 0.6 s i).1 = rateLimit s.lastAccel (MAX_JERK * i.dt) a) := by
  have hdt : ∀ i ∈ [(⟨1/60, 0, 150, 0⟩ : TickInput)], 0 ≤ i.dt := by
    intro i hi
    simp only [List.mem_singleton] at hi
    subst hi
    norm_num
  exact ⟨rfl, hdt, jerk_limiter_invariant 0.6 _ _ rfl hdt⟩

/-- Counterexample to Claim C3 as stated: with profile 0.6, perceived
distance 150, perceived relative speed 0, follower speed 0 and
dt = 1/60, the distance error is 3 (inside the deadband of 6), the
too-close branch does not fire (150 is not below 25) and the TTC branch
does not fire (ttc is inf); yet the pre-jerk-limit desired acceleration
is not 0: the cruise else-branch of the arbitration chain runs after the
deadband block and overwrites the 0 with the accel PID output. -/
theorem deadband_zero_cex :
    (|150 - max (TARGET_DISTANCE 0.6) (STANDSTILL_DISTANCE + 0 * TIME_HEADWAY 0.6)| < DEADBAND) ∧
    ¬((150:ℚ) < STANDSTILL_DISTANCE + 0 * TIME_HEADWAY 0.6) ∧
    ttcLt (computeTTC 150 0) (DESIRED_TTC 0.6) = false ∧
    (arbitrate 0.6 (accelPID0 0.6) (brakePID0 0.6) 150 0 0 (1/60)).desired ≠ 0 := by
  have hT : TARGET_DISTANCE 0.6 = 147 := by norm_num [TARGET_DISTANCE]
  have hS : STANDSTILL_DISTANCE + 0 * TIME_HEADWAY 0.6 = 25 := by
    norm_num [STANDSTILL_DISTANCE, TIME_HEADWAY]
  have hmax : max (TARGET_DISTANCE 0.6) (STANDSTILL_DISTANCE + 0 * TIME_HEADWAY 0.6) = 147 := by
    rw [hT, hS]
    exact max_eq_left (by norm_num)
  have hdb : |150 - max (TARGET_DISTANCE 0.6)
      (STANDSTILL_DISTANCE + 0 * TIME_HEADWAY 0.6)| < DEADBAND := by
    rw [hmax, show (150:ℚ) - 147 = 3 by norm_num,
      abs_of_nonneg (by norm_num : (0:ℚ) ≤ 3)]
    norm_num [DEADBAND]
  have hnc : ¬((150:ℚ) < STANDSTILL_DISTANCE + 0 * TIME_HEADWAY 0.6) := by
    rw [hS]
    norm_num
  have httc : ttcLt (computeTTC 150 0) (DESIRED_TTC 0.6) = false := by
    simp [computeTTC, ttcLt]
  refine ⟨hdb, hnc, httc, ?_⟩
  simp only [arbitrate, if_pos hdb, if_neg hnc, httc, Bool.false_eq_true, if_false,
    PIDState.update, PIDState.reset, accelPID0, hmax]
  norm_num [MAX_ACCEL, min_def]

/-- Claim C3 amended: when the distance error is inside the deadband and
neither safety branch fires, the deadband block resets both PIDs, but
the cruise branch then runs and overwrites the zero: the pre-jerk-limit
desired acceleration is min(kp * e + ki * (e * dt) + kd * (e / dt),
MAX_ACCEL) computed by the freshly reset accel PID on the distance error
e (with the derivative term 0 when dt is not positive); it equals 0 only
when e = 0.  The brake PID does end the tick reset. -/
theorem deadband_overwritten_by_cruise (p : ℚ) (pa pb : PIDState)
    (distance rel_speed followerSpeed dt e : ℚ)
    (he : e = distance -
      max (TARGET_DISTANCE p) (STANDSTILL_DISTANCE + followerSpeed * TIME_HEADWAY p))
    (hdb : |e| < DEADBAND)
    (hnc : ¬ distance < STANDSTILL_DISTANCE + followerSpeed * TIME_HEADWAY p)
    (httc : ttcLt (computeTTC distance rel_speed) (DESIRED_TTC p) = false) :
    (arbitrate p pa pb distance rel_speed followerSpeed dt).desired =
      min (pa.kp * e + pa.ki * (e * dt) +
           pa.kd * (if 0 < dt then e / dt else 0)) MAX_ACCEL ∧
    (arbitrate p pa pb distance rel_speed followerSpeed dt).pidBrake = pb.reset := by
  subst he
  simp only [arbitrate, if_pos hdb, if_neg hnc, httc, Bool.false_eq_true, if_false,
    PIDState.update, PIDState.reset, zero_add, sub_zero]
  exact ⟨trivial, trivial⟩

/-- Witness for the amended C3 at the inputs of the counterexample. -/
theorem deadband_overwritten_by_cruise_witness :
    ((3:ℚ) = 150 - max (TARGET_DISTANCE 0.6) (STANDSTILL_DISTANCE + 0 * TIME_HEADWAY 0.6)) ∧
    |(3:ℚ)| < DEADBAND ∧
    ¬((150:ℚ) < STANDSTILL_DISTANCE + 0 * TIME_HEADWAY 0.6) ∧
    ttcLt (computeTTC 150 0) (DESIRED_TTC 0.6) = false ∧
    ((arbitrate 0.6 (accelPID0 0.6) (brakePID0 0.6) 150 0 0 (1/60)).desired =
       min ((accelPID0 0.6).kp * 3 + (accelPID0 0.6).ki * (3 * (1/60)) +
            (accelPID0 0.6).kd * (if (0:ℚ) < 1/60 then 3 / (1/60) else 0)) MAX_ACCEL ∧
     (arbitrate 0.6 (accelPID0 0.6) (brakePID0 0.6) 150 0 0 (1/60)).pidBrake =
       (brakePID0 0.6).reset) := by
  have h1 : (3:ℚ) = 150 - max (TARGET_DISTANCE 0.6) (STANDSTILL_DISTANCE + 0 * TIME_HEADWAY 0.6) := by
    rw [show TARGET_DISTANCE 0.6 = 147 by norm_num [TARGET_DISTANCE],
      show STANDSTILL_DISTANCE + (0:ℚ) * TIME_HEADWAY 0.6 = 25 by
        norm_num [STANDSTILL_DISTANCE, TIME_HEADWAY],
      max_eq_left (by norm_num : (25:ℚ) ≤ 147)]
    norm_num
  have h2 : |(3:ℚ)| < DEADBAND := by
    rw [abs_of_nonneg (by norm_num : (0:ℚ) ≤ 3)]
    norm_num [DEADBAND]
  have h3 : ¬((150:ℚ) < STANDSTILL_DISTANCE + 0 * TIME_HEADWAY 0.6) := by
    norm_num [STANDSTILL_DISTANCE, TIME_HEADWAY]
  have h4 : ttcLt (computeTTC 150 0) (DESIRED_TTC 0.6) = false := by
    simp [computeTTC, ttcLt]
  exact ⟨h1, h2, h3, h4,
    deadband_overwritten_by_cruise 0.6 (accelPID0 0.6) (brakePID0 0.6) 150 0 0 (1/60) 3
      h1 h2 h3 h4⟩

/-- Claim C5: for every capacity and every pushed history, the head of
the reaction buffer (the value oldest returns) is the sample at index
length - cap of the history, that is, the sample pushed exactly cap
ticks ago, counting the push of the current tick as the first; and as
long as the history has not exceeded the capacity this is the very first
sample ever pushed (the startup ramp).  The two clauses agree at a
history of exactly cap pushes, where the returned sample is the first
one. -/
theorem delay_buffer_startup_and_delay (cap : ℕ) (l : List Sample) :
    (bufFill cap l).head? = l[l.length - cap]? ∧
    (l.length ≤ cap → (bufFill cap l).head? = l.head?) := by
  have h1 : (bufFill cap l).head? = l[l.length - cap]? := by
    rw [bufFill_eq_drop]
    exact List.head?_drop l _
  refine ⟨h1, fun hle => ?_⟩
  rw [h1, Nat.sub_eq_zero_of_le hle]
  cases l <;> simp

/-- Witness for C5 at capacity 2 with a single pushed sample. -/
theorem delay_buffer_startup_and_delay_witness :
    (bufFill 2 [(⟨5, 6⟩ : Sample)]).head? = [(⟨5, 6⟩ : Sample)][1 - 2]? ∧
    (bufFill 2 [(⟨5, 6⟩ : Sample)]).head? = [(⟨5, 6⟩ : Sample)].head? := by
  have h := delay_buffer_startup_and_delay 2 [(⟨5, 6⟩ : Sample)]
  exact ⟨h.1, h.2 (by norm_num)⟩

/-- Counterexample to Claim C7 as stated: a tick taking the too-close
branch (perceived distance 10 against a minimum follow distance of 25)
in which the deadband did not fire leaves the brake PID integral at its
incoming value 1 instead of 0: the branch neither updates nor resets the
brake PID. -/
theorem reset_on_loss_cex :
    (controllerTick 0.6
        ⟨accelPID0 0.6, ⟨1.2 + 0.6 * 0.02, 0, 0.6, 1, 2⟩, [], 0⟩
        ⟨1/60, 0, 10, 0⟩).2.2.pidBrake.integral = 1 ∧
    ((bufPush max_len [] ⟨10, 0⟩).headD ⟨10, 0⟩).distance <
      STANDSTILL_DISTANCE + (0:ℚ) * TIME_HEADWAY 0.6 := by
  have hS : STANDSTILL_DISTANCE + (0:ℚ) * TIME_HEADWAY 0.6 = 25 := by
    norm_num [STANDSTILL_DISTANCE, TIME_HEADWAY]
  have hmax : max (TARGET_DISTANCE 0.6) (STANDSTILL_DISTANCE + (0:ℚ) * TIME_HEADWAY 0.6) = 147 := by
    rw [show TARGET_DISTANCE 0.6 = 147 by norm_num [TARGET_DISTANCE], hS]
    exact max_eq_left (by norm_num)
  have hdb : ¬(|(10:ℚ) - max (TARGET_DISTANCE 0.6)
      (STANDSTILL_DISTANCE + (0:ℚ) * TIME_HEADWAY 0.6)| < DEADBAND) := by
    rw [hmax, show (10:ℚ) - 147 = -137 by norm_num,
      abs_of_nonpos (by norm_num : (-137:ℚ) ≤ 0)]
    norm_num [DEADBAND]
  have hc : (10:ℚ) < STANDSTILL_DISTANCE + (0:ℚ) * TIME_HEADWAY 0.6 := by
    rw [hS]
    norm_num
  constructor
  · rw [controllerTick_pidBrake]
    simp only [firstPush_headD]
    simp only [arbitrate, if_neg hdb, if_pos hc]
  · rw [firstPush_headD]
    exact hc

/-- Claim C7 amended: on a tick taking the too-close branch or the
ttc-below-minimum branch, the accel PID is reset and the desired
acceleration is MAX_BRAKE, but the brake PID is reset only when the
deadband condition also held that tick, and is otherwise carried over
unchanged (neither updated nor reset); on a TTC-trim tick the accel PID
is reset, and on a cruise tick the brake PID is reset, as the claim
says. -/
theorem reset_on_loss_amended (p : ℚ) (pa pb : PIDState)
    (distance rel_speed followerSpeed dt : ℚ) :
    (distance < STANDSTILL_DISTANCE + followerSpeed * TIME_HEADWAY p ∨
       ttcLt (computeTTC distance rel_speed) (MIN_TTC p) = true →
     (arbitrate p pa pb distance rel_speed followerSpeed dt).pidAccel = pa.reset ∧
     (arbitrate p pa pb distance rel_speed followerSpeed dt).pidBrake =
       (if |distance - max (TARGET_DISTANCE p)
            (STANDSTILL_DISTANCE + followerSpeed * TIME_HEADWAY p)| < DEADBAND
        then pb.reset else pb) ∧
     (arbitrate p pa pb distance rel_speed followerSpeed dt).desired = MAX_BRAKE) ∧
    (¬ distance < STANDSTILL_DISTANCE + followerSpeed * TIME_HEADWAY p →
     ttcLt (computeTTC distance rel_speed) (DESIRED_TTC p) = true →
     ttcLt (computeTTC distance rel_speed) (MIN_TTC p) = false →
     (arbitrate p pa pb distance rel_speed followerSpeed dt).pidAccel = pa.reset) ∧
    (¬ distance < STANDSTILL_DISTANCE + followerSpeed * TIME_HEADWAY p →
     ttcLt (computeTTC distance rel_speed) (DESIRED_TTC p) = false →
     (arbitrate p pa pb distance rel_speed followerSpeed dt).pidBrake = pb.reset) := by
  refine ⟨?_, ?_, ?_⟩
  · intro h
    by_cases hA : distance < STANDSTILL_DISTANCE + followerSpeed * TIME_HEADWAY p
    · simp only [arbitrate, if_pos hA]
      refine ⟨?_, trivial, trivial⟩
      by_cases hdb : |distance - max (TARGET_DISTANCE p)
          (STANDSTILL_DISTANCE + followerSpeed * TIME_HEADWAY p)| < DEADBAND <;>
        simp [hdb, PIDState.reset]
    · have hB : ttcLt (computeTTC distance rel_speed) (MIN_TTC p) = true :=
        h.resolve_left hA
      have hD : ttcLt (computeTTC distance rel_speed) (DESIRED_TTC p) = true :=
        ttcLt_min_imp_desired p _ hB
      simp only [arbitrate, if_neg hA, hB, hD, if_true]
      refine ⟨?_, trivial, trivial⟩
      by_cases hdb : |distance - max (TARGET_DISTANCE p)
          (STANDSTILL_DISTANCE + followerSpeed * TIME_HEADWAY p)| < DEADBAND <;>
        simp [hdb, PIDState.reset]
  · intro hA hD hB
    simp only [arbitrate, if_neg hA, hD, hB, if_true, Bool.false_eq_true, if_false]
    by_cases hdb : |distance - max (TARGET_DISTANCE p)
        (STANDSTILL_DISTANCE + followerSpeed * TIME_HEADWAY p)| < DEADBAND <;>
      simp [hdb, PIDState.reset]
  · intro hA hD
    simp only [arbitrate, if_neg hA, hD, Bool.false_eq_true, if_false]
    by_cases hdb : |distance - max (TARGET_DISTANCE p)
        (STANDSTILL_DISTANCE + followerSpeed * TIME_HEADWAY p)| < DEADBAND <;>
      simp [hdb, PIDState.reset]

/-- Witness for the amended C7 on a concrete too-close tick. -/
theorem reset_on_loss_amended_witness :
    ((10:ℚ) < STANDSTILL_DISTANCE + 0 * TIME_HEADWAY 0.6) ∧
    ((arbitrate 0.6 (accelPID0 0.6) (brakePID0 0.6) 10 0 0 (1/60)).pidAccel =
       (accelPID0 0.6).reset ∧
     (arbitrate 0.6 (accelPID0 0.6) (brakePID0 0.6) 10 0 0 (1/60)).pidBrake =
       (if |(10:ℚ) - max (TARGET_DISTANCE 0.6) (STANDSTILL_DISTANCE + 0 * TIME_HEADWAY 0.6)| < DEADBAND
        then (brakePID0 0.6).reset else brakePID0 0.6) ∧
     (arbitrate 0.6 (accelPID0 0.6) (brakePID0 0.6) 10 0 0 (1/60)).desired = MAX_BRAKE) :=
  ⟨by norm_num [STANDSTILL_DISTANCE, TIME_HEADWAY],
   (reset_on_loss_amended 0.6 (accelPID0 0.6) (brakePID0 0.6) 10 0 0 (1/60)).1
     (Or.inl (by norm_num [STANDSTILL_DISTANCE, TIME_HEADWAY]))⟩

/-- Claim C10: the per-tick computation is a pure deterministic function
of the carried controller state and the tick inputs: two runs from equal
initial states over equal input sequences produce equal traces of
commanded accelerations and braking indicators. -/
theorem tick_determinism (p : ℚ) (s1 s2 : CtrlState) (ins1 ins2 : List TickInput)
    (hs : s1 = s2) (hins : ins1 = ins2) :
    runTrace p s1 ins1 = runTrace p s2 ins2 := by
  rw [hs, hins]

/-- Witness for C10 on a concrete one-tick run. -/
theorem tick_determinism_witness :
    runTrace 0.6 ⟨accelPID0 0.6, brakePID0 0.6, [], 0⟩ [(⟨1/60, 0, 150, 0⟩ : TickInput)] =
      runTrace 0.6 ⟨accelPID0 0.6, brakePID0 0.6, [], 0⟩ [(⟨1/60, 0, 150, 0⟩ : TickInput)] :=
  tick_determinism 0.6 _ _ _ _ rfl rfl
